import Mathlib

/-!
Verification of the `recovery` HTTP panic-recovery middleware (Go).

The embedding models the package's observable state and its three source
units: the `Recover` middleware (recover a panic, classify its value,
capture and trim a stack trace, call the configured error handler), the
`DefaultErrorHandler`, and the functional-option configuration surface
(`NewConfig`, `ContentType`, `ResponseStatus`, `StackSize`, `Logger`,
`ErrorHandler`).
-/

namespace Recovery

/-- State of an `http.ResponseWriter`: response headers, the status line
(written at most once; a second `WriteHeader` is ignored by the transport),
and the body bytes written so far. -/
structure RespWriter where
  headers : List (String × String)
  status : Option Int
  body : String
  deriving DecidableEq

/-- `Header().Set(k, v)`: replace any existing value for key `k`. -/
def RespWriter.setHeader (rw : RespWriter) (k v : String) : RespWriter :=
  { rw with headers := (k, v) :: rw.headers.filter (fun p => p.1 != k) }

/-- Look up a response header value. -/
def RespWriter.getHeader (rw : RespWriter) (k : String) : Option String :=
  (rw.headers.find? (fun p => p.1 == k)).map Prod.snd

/-- `WriteHeader(st)`: writes the status line once; subsequent calls are
ignored. -/
def RespWriter.writeHeader (rw : RespWriter) (st : Int) : RespWriter :=
  match rw.status with
  | none => { rw with status := some st }
  | some _ => rw

/-- The observable world of one request: the response writer state and the
log records emitted so far, each tagged with the handle of the logger that
wrote it. -/
structure World where
  resp : RespWriter
  logs : List (Nat × String)
  deriving DecidableEq

/-- The value carried by a Go `panic`, as the embedded `recover()` returns
it: `nil`, a `string`, an `error` (carrying its description, what
`fmt.Sprintf("%s", err)` prints), or a value of any other type. -/
inductive PanicValue where
  | nil : PanicValue
  | str : String → PanicValue
  | err : String → PanicValue
  | other : PanicValue
  deriving DecidableEq

/-- How one invocation of the inner handler ends: a normal return or a
panic carrying a value. -/
inductive Outcome where
  | normal : Outcome
  | panicked : PanicValue → Outcome
  deriving DecidableEq

/-- An inner `http.Handler`: consumes the world (it may write response
bytes and log records) and either returns normally or panics. -/
def Handler : Type := World → World × Outcome

/-- The data fields of `Config` (everything but the handler function
itself), as the error handler sees them. -/
structure ConfigView where
  ContentType : String
  ResponseStatus : Int
  StackSize : Int
  Logger : Nat
  deriving DecidableEq

/-- The type of `Config.ErrHandler`: Go signature
`func(c *Config, w http.ResponseWriter, msg string, stack []string)`; its
effect is a transformation of the world. -/
def ErrHandlerFn : Type := ConfigView → World → String → List String → World

/-- `Config`: content type, response status, stack-buffer size, the logger
(an opaque handle to a sink), and the error handler. -/
structure Config where
  ContentType : String
  ResponseStatus : Int
  StackSize : Int
  Logger : Nat
  ErrHandler : ErrHandlerFn

/-- The data fields of a `Config`. -/
def Config.view (c : Config) : ConfigView :=
  ⟨c.ContentType, c.ResponseStatus, c.StackSize, c.Logger⟩

/-- `MinimumStackSize = 4 << 10` bytes. -/
def MinimumStackSize : Int := 4096

/-- The record `log.Logger.Printf("%s\n%s", msg, strings.Join(stack, "\n"))`
formats. -/
def logRecord (msg : String) (stack : List String) : String :=
  msg ++ "\n" ++ String.intercalate "\n" stack

/-- `DefaultErrorHandler`: print the message and the joined stack to the
configured logger as one record, set the `Content-Type` header, write the
configured status, write no body. -/
def DefaultErrorHandler : ErrHandlerFn := fun c w msg stack =>
  let w1 : World := { w with logs := w.logs ++ [(c.Logger, logRecord msg stack)] }
  let w2 : World := { w1 with resp := w1.resp.setHeader "Content-Type" c.ContentType }
  { w2 with resp := w2.resp.writeHeader c.ResponseStatus }

/-- The handle of the default logger `log.New(os.Stderr, "", log.LstdFlags)`. -/
def stderrLogger : Nat := 0

/-- `NewConfig()`: the default configuration. -/
def NewConfig : Config :=
  { ContentType := "application/json"
    ResponseStatus := 500
    StackSize := MinimumStackSize
    Logger := stderrLogger
    ErrHandler := DefaultErrorHandler }

/-- The five option constructors of the package; `applyOption` gives each
one its meaning. -/
inductive ConfigOption where
  | contentType : String → ConfigOption
  | responseStatus : Int → ConfigOption
  | stackSize : Int → ConfigOption
  | logger : Nat → ConfigOption
  | errorHandler : ErrHandlerFn → ConfigOption

/-- Applying one option to the configuration, as each constructor's closure
does. `stackSize val` mirrors `if val <= MinimumStackSize { return }`. -/
def applyOption (c : Config) : ConfigOption → Config
  | ConfigOption.contentType v => { c with ContentType := v }
  | ConfigOption.responseStatus v => { c with ResponseStatus := v }
  | ConfigOption.stackSize v =>
      if v ≤ MinimumStackSize then c else { c with StackSize := v }
  | ConfigOption.logger l => { c with Logger := l }
  | ConfigOption.errorHandler h => { c with ErrHandler := h }

/-- `for _, v := range options { v(c) }`: apply the options in order. -/
def applyOptions (c : Config) (opts : List ConfigOption) : Config :=
  opts.foldl applyOption c

/-- The configuration `Recover(options...)` builds at installation time:
`NewConfig()` then the options in the order supplied. -/
def RecoverConfig (opts : List ConfigOption) : Config :=
  applyOptions NewConfig opts

/-- The message of the `switch x := v.(type)` classification: a string
gives `"panic: " + x`, an error gives `"panic: " + x.Error()`, anything
else gives `"unknown panic"`. -/
def classifyMsg : PanicValue → String
  | PanicValue.str s => "panic: " ++ s
  | PanicValue.err e => "panic: " ++ e
  | _ => "unknown panic"

/-- `buf := make([]byte, size); buf = buf[:runtime.Stack(buf, false)]`:
`runtime.Stack` writes at most `size` bytes of the stack dump, so the
captured text is a prefix of the full dump of at most `size` bytes. -/
def captureStack (stackText : String) (size : Nat) : String :=
  ⟨stackText.data.take size⟩

/-- `strings.Split(string(buf), "\n")`. -/
def splitLines (s : String) : List String :=
  s.splitOn "\n"

/-- `if len(stack) > 3 { stack = stack[3:] }`. -/
def trimStack (stack : List String) : List String :=
  if 3 < stack.length then stack.drop 3 else stack

/-- The trace handed to the error handler: capture at most `StackSize`
bytes of the stack text, split on newlines, drop the first 3 lines when
more than 3. -/
def diagTrace (c : Config) (stackText : String) : List String :=
  trimStack (splitLines (captureStack stackText c.StackSize.toNat))

/-- One invocation of `Config.ErrHandler` by the middleware, with the
arguments it received. -/
structure DispatchEvent where
  cfg : ConfigView
  msg : String
  trace : List String
  deriving DecidableEq

/-- The event the middleware records for a panic carrying `v`. -/
def diagEvent (c : Config) (stackText : String) (v : PanicValue) : DispatchEvent :=
  ⟨c.view, classifyMsg v, diagTrace c stackText⟩

/-- Result of one guarded request: the final world, the error-handler
invocations that happened, and how the guarded handler itself ends. -/
structure GuardResult where
  world : World
  events : List DispatchEvent
  outcome : Outcome

/-- One request through the wrapped handler returned by `Recover`: run the
inner handler; the deferred function recovers any panic, and when the
recovered value is non-nil it classifies the value, captures and trims the
stack, and calls `c.ErrHandler`. `stackText` is the stack dump
`runtime.Stack` would format at the point of recovery. -/
def recoverServe (c : Config) (h : Handler) (stackText : String) (w : World) : GuardResult :=
  match h w with
  | (w1, Outcome.normal) => ⟨w1, [], Outcome.normal⟩
  | (w1, Outcome.panicked v) =>
      if v = PanicValue.nil then
        ⟨w1, [], Outcome.normal⟩
      else
        ⟨c.ErrHandler c.view w1 (classifyMsg v) (diagTrace c stackText),
         [diagEvent c stackText v],
         Outcome.normal⟩

/-- The full middleware: build the configuration from the options, then
serve requests through the guard. -/
def Recover (opts : List ConfigOption) (h : Handler) (stackText : String)
    (w : World) : GuardResult :=
  recoverServe (RecoverConfig opts) h stackText w

/-- An empty response writer: no headers, no status written, empty body. -/
def emptyResp : RespWriter := ⟨[], none, ""⟩

/-- A fresh world: empty response, no log records. -/
def emptyWorld : World := ⟨emptyResp, []⟩

/-- An inner handler that returns normally without writing. -/
def okHandler : Handler := fun w => (w, Outcome.normal)

/-- An inner handler that panics with a string value. -/
def strPanicHandler (s : String) : Handler :=
  fun w => (w, Outcome.panicked (PanicValue.str s))

/-- An inner handler that panics with an error value. -/
def errPanicHandler (e : String) : Handler :=
  fun w => (w, Outcome.panicked (PanicValue.err e))

/-- An inner handler that panics with a value of unrecognized shape. -/
def otherPanicHandler : Handler :=
  fun w => (w, Outcome.panicked PanicValue.other)

/-- An inner handler that panics with a nil value. -/
def nilPanicHandler : Handler :=
  fun w => (w, Outcome.panicked PanicValue.nil)

/-- Every option application preserves the stack-size floor. -/
theorem applyOption_stackSize_floor (c : Config) (o : ConfigOption)
    (hc : MinimumStackSize ≤ c.StackSize) :
    MinimumStackSize ≤ (applyOption c o).StackSize := by
  cases o with
  | stackSize v =>
      by_cases hv : v ≤ MinimumStackSize
      · simpa [applyOption, hv] using hc
      · simp only [applyOption, hv, if_false]
        exact le_of_lt (lt_of_not_le hv)
  | contentType v => simpa [applyOption] using hc
  | responseStatus v => simpa [applyOption] using hc
  | logger l => simpa [applyOption] using hc
  | errorHandler h => simpa [applyOption] using hc

/-- Folding any option list preserves the stack-size floor. -/
theorem applyOptions_stackSize_floor (opts : List ConfigOption) (c : Config)
    (hc : MinimumStackSize ≤ c.StackSize) :
    MinimumStackSize ≤ (applyOptions c opts).StackSize := by
  induction opts generalizing c with
  | nil => exact hc
  | cons o rest ih =>
      exact ih (applyOption c o) (applyOption_stackSize_floor c o hc)

/-- C3: when the inner handler returns normally the wrapper is transparent:
the final world is exactly the world the inner handler produced (nothing
more is written to the response or the logger) and the error handler is
never invoked. -/
theorem recover_transparent (c : Config) (h : Handler) (stackText : String)
    (w w1 : World) (hnorm : h w = (w1, Outcome.normal)) :
    (recoverServe c h stackText w).world = w1
    ∧ (recoverServe c h stackText w).events = [] := by
  simp [recoverServe, hnorm]

/-- Witness for `recover_transparent` at a concrete normal handler. -/
theorem recover_transparent_witness :
    (recoverServe NewConfig okHandler "stack" emptyWorld).world = emptyWorld
    ∧ (recoverServe NewConfig okHandler "stack" emptyWorld).events = [] :=
  recover_transparent NewConfig okHandler "stack" emptyWorld emptyWorld rfl

/-- C10: a panic carrying a nil value is recovered (the guarded request
ends normally, the panic does not propagate) but the error handler is not
invoked and nothing is written: `recover()` returns nil, so the
`if v := recover(); v != nil` body is skipped. -/
theorem recover_nil_panic_swallowed (c : Config) (h : Handler) (stackText : String)
    (w w1 : World) (hpan : h w = (w1, Outcome.panicked PanicValue.nil)) :
    (recoverServe c h stackText w).world = w1
    ∧ (recoverServe c h stackText w).events = []
    ∧ (recoverServe c h stackText w).outcome = Outcome.normal := by
  simp [recoverServe, hpan]

/-- Witness for `recover_nil_panic_swallowed` at a concrete nil-panicking
handler. -/
theorem recover_nil_panic_swallowed_witness :
    (recoverServe NewConfig nilPanicHandler "stack" emptyWorld).world = emptyWorld
    ∧ (recoverServe NewConfig nilPanicHandler "stack" emptyWorld).events = []
    ∧ (recoverServe NewConfig nilPanicHandler "stack" emptyWorld).outcome
        = Outcome.normal :=
  recover_nil_panic_swallowed NewConfig nilPanicHandler "stack" emptyWorld
    emptyWorld rfl

/-- C1: per request the error handler is invoked at most once; it is
invoked exactly when a non-nil panic escaped the inner handler, in which
case the recovered value is turned into the diagnostic message and trimmed
trace and handed to `c.ErrHandler`; and the guarded request always ends
normally (the recovered panic is never re-raised). -/
theorem recover_dispatch_at_most_once (c : Config) (h : Handler)
    (stackText : String) (w : World) :
    (recoverServe c h stackText w).events.length ≤ 1
    ∧ (recoverServe c h stackText w).outcome = Outcome.normal
    ∧ ((recoverServe c h stackText w).events ≠ []
        ↔ ∃ w1 v, h w = (w1, Outcome.panicked v) ∧ v ≠ PanicValue.nil)
    ∧ (∀ w1 v, h w = (w1, Outcome.panicked v) → v ≠ PanicValue.nil →
        (recoverServe c h stackText w).events = [diagEvent c stackText v]
        ∧ (recoverServe c h stackText w).world
            = c.ErrHandler c.view w1 (classifyMsg v) (diagTrace c stackText)) := by
  rcases hhw : h w with ⟨w1, out⟩
  cases out with
  | normal =>
      refine ⟨by simp [recoverServe, hhw], by simp [recoverServe, hhw], ?_, ?_⟩
      · simp [recoverServe, hhw]
      · intro w2 v hpan
        exact absurd hpan (by simp)
  | panicked v =>
      by_cases hv : v = PanicValue.nil
      · subst hv
        refine ⟨by simp [recoverServe, hhw], by simp [recoverServe, hhw], ?_, ?_⟩
        · simp [recoverServe, hhw]
        · intro w2 v' hpan hv'
          have hvv : PanicValue.nil = v' := by
            simpa using congrArg Prod.snd hpan
          exact absurd hvv.symm hv'
      · refine ⟨by simp [recoverServe, hhw, hv], by simp [recoverServe, hhw, hv],
          ?_, ?_⟩
        · simp only [recoverServe, hhw, hv, if_false]
          constructor
          · intro _
            exact ⟨w1, v, rfl, hv⟩
          · intro _
            simp
        · intro w2 v' hpan hv'
          have hw2 : w1 = w2 := by
            simpa using congrArg Prod.fst hpan
          have hvv : v = v' := by
            simpa using congrArg Prod.snd hpan
          subst hw2
          subst hvv
          constructor
          · simp [recoverServe, hhw, hv]
          · simp [recoverServe, hhw, hv]

/-- C2: the diagnostic message handed to the error handler is
`classifyMsg` of the recovered value, and `classifyMsg` is the three-way
classification of the source's type switch: a string `s` gives
`"panic: " + s`, an error gives `"panic: " +` its description, any other
value gives `"unknown panic"`. -/
theorem recover_msg_classification (c : Config) (h : Handler) (stackText : String)
    (w w1 : World) (v : PanicValue) (hpan : h w = (w1, Outcome.panicked v))
    (hv : v ≠ PanicValue.nil) :
    (recoverServe c h stackText w).events.map DispatchEvent.msg = [classifyMsg v]
    ∧ (∀ s, classifyMsg (PanicValue.str s) = "panic: " ++ s)
    ∧ (∀ e, classifyMsg (PanicValue.err e) = "panic: " ++ e)
    ∧ classifyMsg PanicValue.other = "unknown panic" := by
  refine ⟨?_, fun s => rfl, fun e => rfl, rfl⟩
  simp [recoverServe, hpan, hv, diagEvent]

/-- Witness for `recover_msg_classification` at a handler panicking with
the string "boom". -/
theorem recover_msg_classification_witness :
    (recoverServe NewConfig (strPanicHandler "boom") "stack" emptyWorld).events.map
      DispatchEvent.msg = [classifyMsg (PanicValue.str "boom")] :=
  (recover_msg_classification NewConfig (strPanicHandler "boom") "stack"
    emptyWorld emptyWorld (PanicValue.str "boom") rfl (by decide)).1

/-- C5: the trace handed to the error handler is the captured stack text
split on newlines and then trimmed by `trimStack`, which drops exactly the
first 3 lines when the list has more than 3 lines and keeps every line
otherwise. -/
theorem recover_trace_trimmed (c : Config) (h : Handler) (stackText : String)
    (w w1 : World) (v : PanicValue) (hpan : h w = (w1, Outcome.panicked v))
    (hv : v ≠ PanicValue.nil) :
    (recoverServe c h stackText w).events.map DispatchEvent.trace
        = [trimStack (splitLines (captureStack stackText c.StackSize.toNat))]
    ∧ (∀ l : List String, 3 < l.length → trimStack l = l.drop 3)
    ∧ (∀ l : List String, l.length ≤ 3 → trimStack l = l) := by
  refine ⟨?_, ?_, ?_⟩
  · simp [recoverServe, hpan, hv, diagEvent, diagTrace]
  · intro l hl
    simp [trimStack, hl]
  · intro l hl
    simp [trimStack, Nat.not_lt.mpr hl]

/-- Witness for `recover_trace_trimmed` at a handler panicking with an
error value. -/
theorem recover_trace_trimmed_witness :
    (recoverServe NewConfig (errPanicHandler "oops") "a\nb\nc\nd\ne"
        emptyWorld).events.map DispatchEvent.trace
      = [trimStack (splitLines (captureStack "a\nb\nc\nd\ne"
          NewConfig.StackSize.toNat))] :=
  (recover_trace_trimmed NewConfig (errPanicHandler "oops") "a\nb\nc\nd\ne"
    emptyWorld emptyWorld (PanicValue.err "oops") rfl (by decide)).1

/-- C9: the stack is captured through a buffer of `StackSize` bytes, so
the captured stack text (the line list before trimming, with its
separating newlines) is at most `StackSize` bytes long. -/
theorem recover_stack_capture_bounded (c : Config) (h : Handler)
    (stackText : String) (w w1 : World) (v : PanicValue)
    (hpan : h w = (w1, Outcome.panicked v)) (hv : v ≠ PanicValue.nil)
    (hsz : 0 ≤ c.StackSize) :
    (recoverServe c h stackText w).events.map DispatchEvent.trace
        = [trimStack (splitLines (captureStack stackText c.StackSize.toNat))]
    ∧ ((captureStack stackText c.StackSize.toNat).length : Int) ≤ c.StackSize := by
  constructor
  · simp [recoverServe, hpan, hv, diagEvent, diagTrace]
  · have hlen : (captureStack stackText c.StackSize.toNat).length
        ≤ c.StackSize.toNat := by
      simp only [captureStack, String.length, List.length_take]
      exact min_le_left _ _
    calc ((captureStack stackText c.StackSize.toNat).length : Int)
        ≤ (c.StackSize.toNat : Int) := by exact_mod_cast hlen
      _ = c.StackSize := Int.toNat_of_nonneg hsz

/-- Witness for `recover_stack_capture_bounded` at a handler panicking
with a non-string, non-error value. -/
theorem recover_stack_capture_bounded_witness :
    (recoverServe NewConfig otherPanicHandler "goroutine 1:\nx\ny\nz"
        emptyWorld).events.map DispatchEvent.trace
      = [trimStack (splitLines (captureStack "goroutine 1:\nx\ny\nz"
          NewConfig.StackSize.toNat))]
    ∧ ((captureStack "goroutine 1:\nx\ny\nz"
          NewConfig.StackSize.toNat).length : Int) ≤ NewConfig.StackSize :=
  recover_stack_capture_bounded NewConfig otherPanicHandler
    "goroutine 1:\nx\ny\nz" emptyWorld emptyWorld PanicValue.other rfl
    (by decide) (by decide)

/-- C4: the default error handler appends exactly one record — the message
followed by the trace lines joined with newlines — to the configured
logger, sets the `Content-Type` header to the configured content type,
writes the configured response status, and writes no response body. -/
theorem defaultErrorHandler_spec (cv : ConfigView) (msg : String)
    (stack : List String) (w : World) (hst : w.resp.status = none) :
    (DefaultErrorHandler cv w msg stack).logs
        = w.logs ++ [(cv.Logger, msg ++ "\n" ++ String.intercalate "\n" stack)]
    ∧ (DefaultErrorHandler cv w msg stack).resp.getHeader "Content-Type"
        = some cv.ContentType
    ∧ (DefaultErrorHandler cv w msg stack).resp.status = some cv.ResponseStatus
    ∧ (DefaultErrorHandler cv w msg stack).resp.body = w.resp.body := by
  refine ⟨rfl, ?_, ?_, ?_⟩ <;>
    simp [DefaultErrorHandler, logRecord, RespWriter.setHeader,
      RespWriter.getHeader, RespWriter.writeHeader, hst, List.find?]

/-- Witness for `defaultErrorHandler_spec` at a concrete fresh world. -/
theorem defaultErrorHandler_spec_witness :
    (DefaultErrorHandler NewConfig.view emptyWorld "panic: boom" ["x", "y"]).logs
        = emptyWorld.logs
          ++ [(NewConfig.view.Logger,
                "panic: boom" ++ "\n" ++ String.intercalate "\n" ["x", "y"])]
    ∧ (DefaultErrorHandler NewConfig.view emptyWorld "panic: boom"
        ["x", "y"]).resp.getHeader "Content-Type" = some NewConfig.view.ContentType
    ∧ (DefaultErrorHandler NewConfig.view emptyWorld "panic: boom"
        ["x", "y"]).resp.status = some NewConfig.view.ResponseStatus
    ∧ (DefaultErrorHandler NewConfig.view emptyWorld "panic: boom"
        ["x", "y"]).resp.body = emptyWorld.resp.body :=
  defaultErrorHandler_spec NewConfig.view "panic: boom" ["x", "y"] emptyWorld rfl

/-- C6: applying `StackSize v` with `v ≤ MinimumStackSize` leaves the
configuration exactly as it was (a no-op), while `v > MinimumStackSize`
sets the stack size to `v` and changes nothing else. -/
theorem stackSize_option_clamp (c : Config) (v : Int) :
    (v ≤ MinimumStackSize → applyOption c (ConfigOption.stackSize v) = c)
    ∧ (MinimumStackSize < v →
        applyOption c (ConfigOption.stackSize v) = { c with StackSize := v }) := by
  constructor
  · intro hv
    simp [applyOption, hv]
  · intro hv
    simp [applyOption, not_le.mpr hv]

/-- C7: the default configuration starts at the stack-size floor, every
option application preserves `MinimumStackSize ≤ StackSize`, and therefore
the configuration built by `Recover` from any option list satisfies it. -/
theorem stackSize_floor_invariant :
    MinimumStackSize ≤ NewConfig.StackSize
    ∧ (∀ c o, MinimumStackSize ≤ c.StackSize →
        MinimumStackSize ≤ (applyOption c o).StackSize)
    ∧ (∀ opts, MinimumStackSize ≤ (RecoverConfig opts).StackSize) :=
  ⟨le_refl _, applyOption_stackSize_floor,
    fun opts => applyOptions_stackSize_floor opts NewConfig (le_refl _)⟩

/-- C8 counterexample: with `StackSize(8192)` followed by `StackSize(1)`,
the final stack size is 8192, not the later option's value 1 — the later
option targeting the same field does not win. -/
theorem stackSize_later_option_loses :
    (RecoverConfig [ConfigOption.stackSize 8192, ConfigOption.stackSize 1]).StackSize
        = 8192
    ∧ (RecoverConfig [ConfigOption.stackSize 8192,
        ConfigOption.stackSize 1]).StackSize ≠ 1 := by
  constructor <;> decide

/-- C8 amended: options are applied left to right in the order supplied;
each option rewrites exactly its one named field (a `StackSize` value at
or below the floor rewrites nothing); a later option targeting the same
field wins, except that a later `StackSize` at or below the floor is a
no-op and the earlier value stays. -/
theorem option_application_order_and_override :
    (∀ c o opts, applyOptions c (o :: opts) = applyOptions (applyOption c o) opts)
    ∧ (∀ c, applyOptions c [] = c)
    ∧ (∀ c v, applyOption c (ConfigOption.contentType v) = { c with ContentType := v })
    ∧ (∀ c v, applyOption c (ConfigOption.responseStatus v)
        = { c with ResponseStatus := v })
    ∧ (∀ c l, applyOption c (ConfigOption.logger l) = { c with Logger := l })
    ∧ (∀ c f, applyOption c (ConfigOption.errorHandler f) = { c with ErrHandler := f })
    ∧ (∀ c v, MinimumStackSize < v →
        applyOption c (ConfigOption.stackSize v) = { c with StackSize := v })
    ∧ (∀ c v, v ≤ MinimumStackSize → applyOption c (ConfigOption.stackSize v) = c)
    ∧ (∀ c a b, (applyOptions c [ConfigOption.contentType a,
        ConfigOption.contentType b]).ContentType = b)
    ∧ (∀ c a b, (applyOptions c [ConfigOption.responseStatus a,
        ConfigOption.responseStatus b]).ResponseStatus = b)
    ∧ (∀ c a b, (applyOptions c [ConfigOption.logger a,
        ConfigOption.logger b]).Logger = b)
    ∧ (∀ c f g, (applyOptions c [ConfigOption.errorHandler f,
        ConfigOption.errorHandler g]).ErrHandler = g)
    ∧ (∀ c a b, MinimumStackSize < b →
        (applyOptions c [ConfigOption.stackSize a,
          ConfigOption.stackSize b]).StackSize = b)
    ∧ (∀ c a b, b ≤ MinimumStackSize →
        (applyOptions c [ConfigOption.stackSize a,
          ConfigOption.stackSize b]).StackSize
          = (applyOption c (ConfigOption.stackSize a)).StackSize) := by
  refine ⟨fun c o opts => rfl, fun c => rfl, fun c v => rfl, fun c v => rfl,
    fun c l => rfl, fun c f => rfl, ?_, ?_, fun c a b => rfl, fun c a b => rfl,
    fun c a b => rfl, fun c f g => rfl, ?_, ?_⟩
  · intro c v hv
    simp [applyOption, not_le.mpr hv]
  · intro c v hv
    simp [applyOption, hv]
  · intro c a b hb
    simp [applyOptions, applyOption, not_le.mpr hb]
  · intro c a b hb
    simp [applyOptions, applyOption, hb]

end Recovery
